import Mathlib

/-!
Shallow embedding of the stdio JSON-RPC MCP clients of this repository
(unified_mcp_client.py, simple_mcp_client.py, aws_mcp_client.py,
git_mcp_client.py): request construction, the response read path,
connect, disconnect and the tool operations, together with proofs of
the specification claims about them.

The I/O effects a method observes (what the spawn attempt yielded, what
one read cycle on the peer's stdout yielded) are passed to the embedded
functions as explicit event values; each embedded function returns the
resulting client state together with the value the Python method
returns and, where relevant, the trace of process operations or sent
envelopes it performs.
-/

namespace MCP

/-- JSON values as produced by json.loads. Python dicts are modelled as
association lists with distinct keys (json.loads deduplicates keys), so
field lookup is first-match. -/
inductive Json where
  | null : Json
  | bool : Bool → Json
  | num : Int → Json
  | str : String → Json
  | arr : List Json → Json
  | obj : List (String × Json) → Json
deriving Repr

/-- Python truthiness of a decoded JSON value (`if response`): empty
dict, empty list, empty string, 0, False and None are falsy. -/
def Json.truthy : Json → Bool
  | .null => false
  | .bool b => b
  | .num n => n != 0
  | .str s => s != ""
  | .arr xs => !xs.isEmpty
  | .obj fs => !fs.isEmpty

/-- Dict field lookup, `response["result"]` / `d.get(k)`. Returns none
on a non-dict, matching that the claims only exercise dict responses. -/
def Json.getField : Json → String → Option Json
  | .obj fs, k => (fs.find? (fun f => f.fst == k)).map (fun f => f.snd)
  | _, _ => none

/-- Python's `k in response` membership test on a dict response. -/
def Json.hasField (j : Json) (k : String) : Bool :=
  (j.getField k).isSome

/-- Behaviour of the spawned child process as the shutdown path can
observe it: `returncode` is the exit status if the process has already
exited (`none` = still running); `stdinOpen` says whether the stdin
pipe is still open; `exitsOnStdinClose` says whether closing stdin
makes the peer exit during the brief sleep that follows; `termExit` is
the number of time units after a terminate() signal at which the
process exits (`none` = the process ignores the termination signal).
A kill() always succeeds: a killed process is guaranteed to exit. -/
structure Proc where
  returncode : Option Int
  stdinOpen : Bool
  exitsOnStdinClose : Bool
  termExit : Option Nat
deriving Repr, DecidableEq

/-- The per-instance state every client class keeps: `self.process` and
`self.request_id` (unified_mcp_client.py lines 34-35). -/
structure ClientState where
  process : Option Proc
  request_id : Nat
deriving Repr, DecidableEq

/-- A freshly constructed client: `self.process = None`,
`self.request_id = 0`. -/
def freshClient : ClientState := ⟨none, 0⟩

/-- Python method `_get_next_id` (unified_mcp_client.py lines 45-48): increment the
counter and return it. -/
def BaseMCPClient.get_next_id (s : ClientState) : Nat × ClientState :=
  (s.request_id + 1, { s with request_id := s.request_id + 1 })

/-- The grace timeout passed to `wait_for(self.process.wait(), timeout=3)`
in disconnect (unified_mcp_client.py line 127). -/
def graceTimeout : Nat := 3

/-- Process operations disconnect can perform, in order. -/
inductive ProcAction where
  | closeStdin
  | terminate
  | waitGraceOk
  | waitGraceTimeout
  | kill
  | waitUncond
deriving Repr, DecidableEq

/-- The sequence of process operations `BaseMCPClient.disconnect`
(unified_mcp_client.py lines 114-145) performs on a process `p`:
close stdin if open, then, if the process is still running, terminate()
and a grace wait bounded by `graceTimeout`; if the grace wait times
out, kill() followed by an unconditional wait(). -/
def BaseMCPClient.disconnectActions (p : Proc) : List ProcAction :=
  let stdinActs := if p.stdinOpen then [ProcAction.closeStdin] else []
  let exitedBeforeTerm := p.returncode.isSome || (p.stdinOpen && p.exitsOnStdinClose)
  let termActs :=
    if exitedBeforeTerm then []
    else
      match p.termExit with
      | some t =>
        if t ≤ graceTimeout then [ProcAction.terminate, ProcAction.waitGraceOk]
        else [ProcAction.terminate, ProcAction.waitGraceTimeout,
              ProcAction.kill, ProcAction.waitUncond]
      | none => [ProcAction.terminate, ProcAction.waitGraceTimeout,
                 ProcAction.kill, ProcAction.waitUncond]
  stdinActs ++ termActs

/-- Python method `BaseMCPClient.disconnect` (unified_mcp_client.py lines 114-145):
a no-op when no process is associated; otherwise runs the shutdown
action sequence and, in the `finally` block, clears `self.process`.
The same code appears verbatim in aws_mcp_client.py lines 103-136 and
git_mcp_client.py lines 101-132. -/
def BaseMCPClient.disconnect (s : ClientState) : ClientState × List ProcAction :=
  match s.process with
  | none => (s, [])
  | some p => ({ s with process := none }, BaseMCPClient.disconnectActions p)

/-- Evidence, from the behaviour parameters of `p` and the operations
performed, that the process has exited by the time disconnect returns:
it had already exited, or it exited when stdin was closed, or the grace
wait observed its exit, or it was killed and the unconditional wait
reaped it. -/
def Proc.exitedAfter (p : Proc) (acts : List ProcAction) : Bool :=
  p.returncode.isSome
  || (acts.contains ProcAction.closeStdin && p.exitsOnStdinClose)
  || acts.contains ProcAction.waitGraceOk
  || (acts.contains ProcAction.kill && acts.contains ProcAction.waitUncond)

/-- Python method `SimpleAWSDocsMCPClient.disconnect` (simple_mcp_client.py lines
91-97): terminate() and then an unbounded wait(), with no grace timeout
and no kill(). The first component is `none` when the call never
returns because the unbounded wait() never completes (the process
ignores the termination signal); the second component lists the
operations performed before the call either returned or got stuck. -/
def SimpleAWSDocsMCPClient.disconnect (s : ClientState) :
    Option ClientState × List ProcAction :=
  match s.process with
  | none => (some s, [])
  | some p =>
    if p.returncode.isSome then
      (some { s with process := none }, [ProcAction.terminate, ProcAction.waitUncond])
    else
      match p.termExit with
      | some _ =>
        (some { s with process := none }, [ProcAction.terminate, ProcAction.waitUncond])
      | none => (none, [ProcAction.terminate])

/-- What one read cycle on the peer's stdout can yield, before JSON
decoding: a timeout of the bounded readline, end of stream (the peer
exited: readline returns an empty byte string), a line that strips to
the empty string, a nonempty line json.loads rejects, or a nonempty
line that decodes to `j`. -/
inductive ReadEvent where
  | timeout
  | eof
  | blankLine
  | malformedLine
  | jsonLine (j : Json)
deriving Repr

/-- The empty dict `{}` that `_read_response` returns on every
non-response outcome. -/
def emptyResponse : Json := Json.obj []

/-- Python method `_read_response` (unified_mcp_client.py lines 156-180): returns the
decoded object for a parseable nonempty line; on a timeout, end of
stream, blank line or a line that fails to decode (JSONDecodeError is
caught, logged, stderr peeked for diagnostics) it returns `{}`. -/
def BaseMCPClient.read_response : ReadEvent → Json
  | .timeout => emptyResponse
  | .eof => emptyResponse
  | .blankLine => emptyResponse
  | .malformedLine => emptyResponse
  | .jsonLine j => j

/-- The `initialize` request envelope built in connect
(unified_mcp_client.py lines 69-85). -/
def initRequest (rid : Nat) (name version : String) : Json :=
  Json.obj [
    ("jsonrpc", Json.str "2.0"),
    ("id", Json.num (Int.ofNat rid)),
    ("method", Json.str "initialize"),
    ("params", Json.obj [
      ("protocolVersion", Json.str "2024-11-05"),
      ("capabilities", Json.obj [("roots", Json.obj [("listChanged", Json.bool true)])]),
      ("clientInfo", Json.obj [("name", Json.str name), ("version", Json.str version)])])]

/-- The `notifications/initialized` notification sent after a
successful handshake (unified_mcp_client.py lines 94-98): no id field,
no params field. -/
def handshakeDoneNotification : Json :=
  Json.obj [("jsonrpc", Json.str "2.0"), ("method", Json.str "notifications/initialized")]

/-- The `tools/list` request envelope (unified_mcp_client.py lines
185-189). -/
def toolsListRequest (rid : Nat) : Json :=
  Json.obj [
    ("jsonrpc", Json.str "2.0"),
    ("id", Json.num (Int.ofNat rid)),
    ("method", Json.str "tools/list")]

/-- The `tools/call` request envelope (unified_mcp_client.py lines
207-215). -/
def toolsCallRequest (rid : Nat) (toolName : String) (arguments : Json) : Json :=
  Json.obj [
    ("jsonrpc", Json.str "2.0"),
    ("id", Json.num (Int.ofNat rid)),
    ("method", Json.str "tools/call"),
    ("params", Json.obj [("name", Json.str toolName), ("arguments", arguments)])]

/-- The failure value `call_tool` returns on a non-success response
(unified_mcp_client.py line 224): a generic message naming only the
tool, not the peer's error. -/
def callToolFailure (toolName : String) : Json :=
  Json.obj [("error", Json.str ("Failed to call tool " ++ toolName))]

/-- Python method `call_tool` (unified_mcp_client.py lines 204-228): draws a fresh
request id, sends the `tools/call` envelope, reads one response; on a
truthy response containing a "result" field it returns that field
verbatim, otherwise it returns the generic failure value. Returns
(new state, request sent on the wire, value returned to the caller).
The same logic appears in git_mcp_client.py lines 191-215. -/
def BaseMCPClient.call_tool (s : ClientState) (toolName : String) (arguments : Json)
    (ev : ReadEvent) : ClientState × Json × Json :=
  let rid := s.request_id + 1
  let req := toolsCallRequest rid toolName arguments
  let response := BaseMCPClient.read_response ev
  let ret :=
    if response.truthy && response.hasField "result" then
      (response.getField "result").getD Json.null
    else callToolFailure toolName
  ({ s with request_id := rid }, req, ret)

/-- Python method `list_tools` (unified_mcp_client.py lines 182-202): draws a fresh
request id, sends the `tools/list` envelope, reads one response; on a
truthy response whose "result" field is a dict it returns
`result.get("tools", [])`; on a non-dict result the AttributeError is
caught and `[]` is returned; on every other outcome it returns `[]`.
Returns (new state, request sent, value returned to the caller). -/
def BaseMCPClient.list_tools (s : ClientState) (ev : ReadEvent) :
    ClientState × Json × Json :=
  let rid := s.request_id + 1
  let req := toolsListRequest rid
  let response := BaseMCPClient.read_response ev
  let ret :=
    if response.truthy && response.hasField "result" then
      match response.getField "result" with
      | some (Json.obj fs) => ((Json.obj fs).getField "tools").getD (Json.arr [])
      | _ => Json.arr []
    else Json.arr []
  ({ s with request_id := rid }, req, ret)

/-- What the spawn attempt in connect yields: a process, a timeout of
the `wait_for` around `create_subprocess_exec`, or an exception from
the spawn itself (bad executable, permission denied). -/
inductive SpawnOutcome where
  | ok (p : Proc)
  | timeout
  | failed
deriving Repr, DecidableEq

/-- What the bounded handshake read in connect yields: either the outer
`wait_for(self._read_response(), timeout=10)` raises TimeoutError, or
`_read_response` completes on the given read cycle. -/
inductive HandshakeRead where
  | outerTimeout
  | read (ev : ReadEvent)
deriving Repr

/-- Observable steps of one connect invocation. -/
inductive ConnectEvent where
  | spawned
  | sent (j : Json)
  | invokedDisconnect
deriving Repr

/-- The result of one connect invocation: the final client state, the
boolean connect returns, and the trace of observable steps. -/
structure ConnectOutcome where
  state : ClientState
  success : Bool
  events : List ConnectEvent
deriving Repr

/-- Python method `BaseMCPClient.connect` (unified_mcp_client.py lines 50-112).
On a spawn timeout or spawn exception the except-branch invokes
disconnect and returns False. After a successful spawn the initialize
envelope is sent; if the outer handshake read raises TimeoutError the
except-branch invokes disconnect and returns False; if `_read_response`
completes, a truthy response containing "result" leads to the
`notifications/initialized` notification being sent and True returned,
while any other response value is logged and False returned directly —
with no disconnect call on that path, the spawned process staying in
`self.process`. The same logic appears in aws_mcp_client.py lines
39-101 and git_mcp_client.py lines 37-99. -/
def BaseMCPClient.connect (s : ClientState) (name version : String)
    (spawn : SpawnOutcome) (hs : HandshakeRead) : ConnectOutcome :=
  match spawn with
  | .timeout =>
    ⟨(BaseMCPClient.disconnect s).fst, false, [ConnectEvent.invokedDisconnect]⟩
  | .failed =>
    ⟨(BaseMCPClient.disconnect s).fst, false, [ConnectEvent.invokedDisconnect]⟩
  | .ok p =>
    let sP := { s with process := some p }
    let rid := sP.request_id + 1
    let s1 := { sP with request_id := rid }
    let req := initRequest rid name version
    match hs with
    | .outerTimeout =>
      ⟨(BaseMCPClient.disconnect s1).fst, false,
        [ConnectEvent.spawned, ConnectEvent.sent req, ConnectEvent.invokedDisconnect]⟩
    | .read ev =>
      let response := BaseMCPClient.read_response ev
      if response.truthy && response.hasField "result" then
        ⟨s1, true,
          [ConnectEvent.spawned, ConnectEvent.sent req,
           ConnectEvent.sent handshakeDoneNotification]⟩
      else
        ⟨s1, false, [ConnectEvent.spawned, ConnectEvent.sent req]⟩

/-- The id-bearing requests a connection issues: the initialize
request, plus one request per tools/list and tools/call invocation.
Notifications carry no id and draw no id. -/
inductive Op where
  | init (name version : String)
  | toolsList
  | toolsCall (toolName : String) (arguments : Json)

/-- The envelope each id-bearing request puts on the wire, given the id
drawn for it. -/
def requestFor (op : Op) (rid : Nat) : Json :=
  match op with
  | .init name version => initRequest rid name version
  | .toolsList => toolsListRequest rid
  | .toolsCall n a => toolsCallRequest rid n a

/-- Issue a sequence of id-bearing requests on one client instance,
each drawing its id from `_get_next_id` exactly as connect, list_tools
and call_tool do. Returns the envelopes in wire order and the final
state. -/
def runOps : ClientState → List Op → List Json × ClientState
  | s, [] => ([], s)
  | s, op :: ops =>
    let (rid, s1) := BaseMCPClient.get_next_id s
    let (rest, s2) := runOps s1 ops
    (requestFor op rid :: rest, s2)

/-- The numeric id field of one envelope as observed on the wire
(0 for an envelope without a numeric id; every id-bearing request of
this client carries one). -/
def idOf (r : Json) : Int :=
  match r.getField "id" with
  | some (Json.num n) => n
  | _ => 0

/-- The id of each envelope, in wire order. -/
def wireIds (reqs : List Json) : List Int :=
  reqs.map idOf

/-- A well-formed successful handshake response: truthy and containing
a "result" field. -/
def goodResponse : Json :=
  Json.obj [("jsonrpc", Json.str "2.0"), ("id", Json.num 1), ("result", Json.obj [])]

/-- The error envelope of Scenario A of the specification:
`{"jsonrpc":"2.0","id":1,"error":{"code":-32601,"message":"unknown method"}}`. -/
def errorEnvelope : Json :=
  Json.obj [("jsonrpc", Json.str "2.0"), ("id", Json.num 1),
    ("error", Json.obj [("code", Json.num (-32601)), ("message", Json.str "unknown method")])]

/-- A live child process: running, stdin open, survives the stdin close,
exits one time unit after a terminate() signal. -/
def promptProc : Proc := ⟨none, true, false, some 1⟩

/-- A live child process that ignores the termination signal (only a
kill() makes it exit). -/
def stubbornProc : Proc := ⟨none, true, false, none⟩

/-- The state of a client after a first successful connect: spawn ok,
handshake answered with `goodResponse`. -/
def firstConnState (p : Proc) : ClientState :=
  (BaseMCPClient.connect freshClient "aws-docs-client" "1.0.0"
    (SpawnOutcome.ok p) (HandshakeRead.read (ReadEvent.jsonLine goodResponse))).state

/-- Connect, issue `ops` further id-bearing requests, disconnect, and
connect again on the same instance. Returns the envelopes of the ops of
the first connection and the outcome of the second connect. -/
def reconnectScenario (p q : Proc) (ops : List Op) : List Json × ConnectOutcome :=
  let r := runOps (firstConnState p) ops
  let s2 := (BaseMCPClient.disconnect r.snd).fst
  (r.fst, BaseMCPClient.connect s2 "aws-docs-client" "1.0.0"
    (SpawnOutcome.ok q) (HandshakeRead.read (ReadEvent.jsonLine goodResponse)))

/-- Whether a JSON value is a dict. -/
def Json.isObj : Json → Bool
  | .obj _ => true
  | _ => false

/-- The outcome C1 asserts for every connect failure: failure returned,
disconnect invoked, no process associated afterwards. -/
def connectFailedWithDisconnect (o : ConnectOutcome) : Prop :=
  o.success = false ∧
  ConnectEvent.invokedDisconnect ∈ o.events ∧
  o.state.process = none

/-- The outcome the code actually produces on a rejected handshake:
failure returned, disconnect never invoked, the spawned process `p`
still associated with the instance. -/
def connectFailedNoDisconnect (o : ConnectOutcome) (p : Proc) : Prop :=
  o.success = false ∧
  ConnectEvent.invokedDisconnect ∉ o.events ∧
  o.state.process = some p

/-- A response for a request other than the one currently pending: it
carries an arbitrary id `i` yet a "result" field with payload `v`. -/
def staleResponse (i : Int) (v : Json) (rest : List (String × Json)) : Json :=
  Json.obj (("jsonrpc", Json.str "2.0") :: ("id", Json.num i) :: ("result", v) :: rest)

/-- A tools/list response carrying an arbitrary id `i` and a tools
array `ts`. -/
def staleListResponse (i : Int) (ts : List Json) : Json :=
  Json.obj [("jsonrpc", Json.str "2.0"), ("id", Json.num i),
    ("result", Json.obj [("tools", Json.arr ts)])]

/-! ## Helper lemmas -/

theorem disconnect_on_live (s : ClientState) (p : Proc) (hp : s.process = some p) :
    BaseMCPClient.disconnect s =
      ({ s with process := none }, BaseMCPClient.disconnectActions p) := by
  simp [BaseMCPClient.disconnect, hp]

theorem connect_goodResponse (s : ClientState) (name version : String) (q : Proc) :
    BaseMCPClient.connect s name version (SpawnOutcome.ok q)
      (HandshakeRead.read (ReadEvent.jsonLine goodResponse)) =
    ⟨{ s with process := some q, request_id := s.request_id + 1 }, true,
      [ConnectEvent.spawned,
       ConnectEvent.sent (initRequest (s.request_id + 1) name version),
       ConnectEvent.sent handshakeDoneNotification]⟩ := rfl

theorem disconnect_process_eq_none (s : ClientState) :
    (BaseMCPClient.disconnect s).fst.process = none := by
  cases h : s.process <;> simp [BaseMCPClient.disconnect, h]

theorem disconnect_request_id_eq (s : ClientState) :
    (BaseMCPClient.disconnect s).fst.request_id = s.request_id := by
  cases h : s.process <;> simp [BaseMCPClient.disconnect, h]

theorem idOf_requestFor (op : Op) (rid : Nat) :
    idOf (requestFor op rid) = Int.ofNat rid := by
  cases op <;> rfl

theorem runOps_wireIds (ops : List Op) : ∀ s : ClientState,
    wireIds (runOps s ops).fst =
      (List.range' (s.request_id + 1) ops.length).map Int.ofNat ∧
    (runOps s ops).snd.request_id = s.request_id + ops.length := by
  induction ops with
  | nil => intro s; simp [runOps, wireIds]
  | cons op ops ih =>
    intro s
    have h := ih { s with request_id := s.request_id + 1 }
    refine ⟨?_, ?_⟩
    · simp only [runOps, BaseMCPClient.get_next_id, wireIds, List.map_cons,
        List.length_cons, List.range'_succ, idOf_requestFor] at h ⊢
      rw [h.1]
    · simp only [runOps, BaseMCPClient.get_next_id, List.length_cons] at h ⊢
      rw [h.2]
      omega

/-! ## Claim theorems -/

/-- C3: for every sequence of N id-bearing requests issued over one
connection of a single client instance (the initialize request plus
every tools/list and tools/call request), the request ids observed on
the wire are exactly 1..N, strictly increasing with no repeats. -/
theorem wire_ids_exactly_one_to_N (ops : List Op) :
    wireIds (runOps freshClient ops).fst =
      (List.range' 1 ops.length).map Int.ofNat ∧
    List.Pairwise (· < ·) (wireIds (runOps freshClient ops).fst) ∧
    (wireIds (runOps freshClient ops).fst).Nodup := by
  have h := (runOps_wireIds ops freshClient).1
  have hpw : List.Pairwise (· < ·) ((List.range' 1 ops.length).map Int.ofNat) := by
    exact List.Pairwise.map Int.ofNat (fun a b hab => Int.ofNat_lt.mpr hab)
      (List.pairwise_lt_range' 1 ops.length)
  rw [h]
  exact ⟨rfl, hpw, hpw.imp ne_of_lt⟩

/-- C5: a line that fails to parse as JSON does not crash the client
and does not surface a distinct MalformedResponse error: the read is
treated as absence of data (the empty response `{}`), and the pending
call_tool / list_tools invocation completes with exactly the failure
value of the timeout case. -/
theorem malformed_line_timeout_equivalent :
    BaseMCPClient.read_response ReadEvent.malformedLine = emptyResponse ∧
    BaseMCPClient.read_response ReadEvent.malformedLine =
      BaseMCPClient.read_response ReadEvent.timeout ∧
    (∀ (s : ClientState) (toolName : String) (args : Json),
      BaseMCPClient.call_tool s toolName args ReadEvent.malformedLine =
        BaseMCPClient.call_tool s toolName args ReadEvent.timeout) ∧
    (∀ s : ClientState,
      BaseMCPClient.list_tools s ReadEvent.malformedLine =
        BaseMCPClient.list_tools s ReadEvent.timeout) :=
  ⟨rfl, rfl, fun _ _ _ => rfl, fun _ => rfl⟩

/-- C7: disconnect is idempotent: from every client state, a second
disconnect right after a first one performs no process operations,
raises no error (it is total and returns the no-op result), and both
calls leave the instance with no associated process. -/
theorem disconnect_idempotent (s : ClientState) :
    (BaseMCPClient.disconnect s).fst.process = none ∧
    BaseMCPClient.disconnect (BaseMCPClient.disconnect s).fst =
      ((BaseMCPClient.disconnect s).fst, []) ∧
    (BaseMCPClient.disconnect (BaseMCPClient.disconnect s).fst).fst.process = none := by
  have h1 : (BaseMCPClient.disconnect s).fst.process = none :=
    disconnect_process_eq_none s
  have hgen : ∀ t : ClientState, t.process = none →
      BaseMCPClient.disconnect t = (t, []) := by
    intro t ht
    simp [BaseMCPClient.disconnect, ht]
  have h2 : BaseMCPClient.disconnect (BaseMCPClient.disconnect s).fst =
      ((BaseMCPClient.disconnect s).fst, []) := hgen _ h1
  exact ⟨h1, h2, by rw [h2]; exact h1⟩

/-- C10: the request-id counter is per-instance state that disconnect
never resets: for every client that connects, issues `ops` further
id-bearing requests (wire ids 1..N+1 in total), disconnects and
connects again, the initialize request of the second connection carries
id N+2, strictly greater than every id of the first connection, and in
particular does not restart at 1. -/
theorem request_id_not_reset_by_disconnect (p q : Proc) (ops : List Op) :
    (∀ s : ClientState, (BaseMCPClient.disconnect s).fst.request_id = s.request_id) ∧
    (reconnectScenario p q ops).snd.events =
      [ConnectEvent.spawned,
       ConnectEvent.sent (initRequest (ops.length + 2) "aws-docs-client" "1.0.0"),
       ConnectEvent.sent handshakeDoneNotification] ∧
    (∀ i ∈ Int.ofNat 1 :: wireIds (reconnectScenario p q ops).fst,
        i < Int.ofNat (ops.length + 2)) ∧
    ops.length + 2 ≠ 1 := by
  have hr := runOps_wireIds ops (⟨some p, 1⟩ : ClientState)
  have hr1 : wireIds (runOps (firstConnState p) ops).fst =
      (List.range' 2 ops.length).map Int.ofNat := hr.1
  have hr2 : (runOps (firstConnState p) ops).snd.request_id = 1 + ops.length := hr.2
  have hs2 : (BaseMCPClient.disconnect (runOps (firstConnState p) ops).snd).fst.request_id =
      ops.length + 1 := by
    rw [disconnect_request_id_eq, hr2]
    omega
  refine ⟨disconnect_request_id_eq, ?_, ?_, by omega⟩
  · show (BaseMCPClient.connect _ "aws-docs-client" "1.0.0" (SpawnOutcome.ok q)
      (HandshakeRead.read (ReadEvent.jsonLine goodResponse))).events = _
    rw [connect_goodResponse, hs2]
  · intro i hi
    rcases List.mem_cons.mp hi with h1 | h2
    · subst h1
      exact Int.ofNat_lt.mpr (by omega)
    · have hw : wireIds (reconnectScenario p q ops).fst =
          (List.range' 2 ops.length).map Int.ofNat := hr1
      rw [hw] at h2
      rcases List.mem_map.mp h2 with ⟨k, hk, rfl⟩
      have := List.mem_range'_1.mp hk
      exact Int.ofNat_lt.mpr (by omega)

/-- C1 counterexample: spawn succeeds and the peer answers the
initialize request with the error envelope of Scenario A; connect
returns failure but never invokes disconnect, and the spawned process
is still associated with the instance when connect returns — refuting
that every failing connect invokes disconnect before returning. -/
theorem connect_error_envelope_leaks_process :
    (BaseMCPClient.connect freshClient "aws-docs-client" "1.0.0"
      (SpawnOutcome.ok promptProc)
      (HandshakeRead.read (ReadEvent.jsonLine errorEnvelope))).success = false ∧
    (BaseMCPClient.connect freshClient "aws-docs-client" "1.0.0"
      (SpawnOutcome.ok promptProc)
      (HandshakeRead.read (ReadEvent.jsonLine errorEnvelope))).state.process =
        some promptProc ∧
    ConnectEvent.invokedDisconnect ∉
      (BaseMCPClient.connect freshClient "aws-docs-client" "1.0.0"
        (SpawnOutcome.ok promptProc)
        (HandshakeRead.read (ReadEvent.jsonLine errorEnvelope))).events := by
  refine ⟨rfl, rfl, ?_⟩
  show ConnectEvent.invokedDisconnect ∉
    [ConnectEvent.spawned,
     ConnectEvent.sent (initRequest 1 "aws-docs-client" "1.0.0")]
  simp

/-- C1 amended: connect invokes disconnect and returns failure on a
spawn exception, a spawn timeout, and an outer handshake timeout, so no
process stays associated on those paths; but when `_read_response`
completes with anything other than a truthy response containing a
"result" field (an error envelope, a missing result, or the empty
response produced when the peer exits or the read times out
internally), connect returns failure without invoking disconnect and
the spawned process remains associated with the instance. -/
theorem connect_failure_disconnect_split
    (s : ClientState) (name version : String) (p : Proc) (ev : ReadEvent)
    (hbad : ((BaseMCPClient.read_response ev).truthy &&
             (BaseMCPClient.read_response ev).hasField "result") = false) :
    connectFailedWithDisconnect
      (BaseMCPClient.connect s name version SpawnOutcome.failed HandshakeRead.outerTimeout) ∧
    connectFailedWithDisconnect
      (BaseMCPClient.connect s name version SpawnOutcome.timeout HandshakeRead.outerTimeout) ∧
    connectFailedWithDisconnect
      (BaseMCPClient.connect s name version (SpawnOutcome.ok p) HandshakeRead.outerTimeout) ∧
    connectFailedNoDisconnect
      (BaseMCPClient.connect s name version (SpawnOutcome.ok p) (HandshakeRead.read ev)) p := by
  refine ⟨⟨rfl, ?_, disconnect_process_eq_none s⟩,
          ⟨rfl, ?_, disconnect_process_eq_none s⟩,
          ⟨rfl, ?_, disconnect_process_eq_none _⟩, ?_⟩
  · exact List.mem_singleton.mpr rfl
  · exact List.mem_singleton.mpr rfl
  · show ConnectEvent.invokedDisconnect ∈
      [ConnectEvent.spawned,
       ConnectEvent.sent (initRequest (s.request_id + 1) name version),
       ConnectEvent.invokedDisconnect]
    simp
  · have hc : BaseMCPClient.connect s name version (SpawnOutcome.ok p)
        (HandshakeRead.read ev) =
        ⟨{ s with process := some p, request_id := s.request_id + 1 }, false,
         [ConnectEvent.spawned,
          ConnectEvent.sent (initRequest (s.request_id + 1) name version)]⟩ := by
      simp [BaseMCPClient.connect, hbad]
    rw [connectFailedNoDisconnect, hc]
    refine ⟨rfl, ?_, rfl⟩
    simp

/-- C1 amended, evaluated: the empty response of a peer that exits
before responding makes connect fail without invoking disconnect. -/
theorem connect_failure_disconnect_split_witness :
    ((BaseMCPClient.read_response ReadEvent.eof).truthy &&
     (BaseMCPClient.read_response ReadEvent.eof).hasField "result") = false ∧
    connectFailedNoDisconnect
      (BaseMCPClient.connect freshClient "git-mcp-client" "1.0.0"
        (SpawnOutcome.ok promptProc) (HandshakeRead.read ReadEvent.eof)) promptProc :=
  ⟨rfl, (connect_failure_disconnect_split freshClient "git-mcp-client" "1.0.0"
    promptProc ReadEvent.eof rfl).2.2.2⟩

/-- C2 counterexample: the disconnect of simple_mcp_client.py, on a
live process that ignores the termination signal, performs only the
terminate() — no kill is ever sent, no grace timeout bounds the wait,
and the call never returns, so the process is never reaped — refuting
the claimed two-phase shutdown for this cited disconnect
implementation. -/
theorem simple_disconnect_never_kills :
    SimpleAWSDocsMCPClient.disconnect ⟨some stubbornProc, 3⟩ =
      (none, [ProcAction.terminate]) ∧
    ProcAction.kill ∉ (SimpleAWSDocsMCPClient.disconnect ⟨some stubbornProc, 3⟩).snd := by
  refine ⟨rfl, ?_⟩
  show ProcAction.kill ∉ [ProcAction.terminate]
  decide

/-- C2 amended: for `BaseMCPClient.disconnect` (the unified and aws
clients) the claimed shutdown holds: with a live associated process,
disconnect clears the association, the process is reaped when
disconnect returns, and — whenever the process is still running after
the stdin-close phase — terminate() is sent; a process exiting within
the 3-unit grace timeout is reaped by the grace wait with no kill,
while one that ignores the signal or outlives the grace timeout is
killed and reaped by the unconditional wait. The disconnect of
simple_mcp_client.py instead terminates and waits without any grace
bound or kill. -/
theorem base_disconnect_two_phase (s : ClientState) (p : Proc)
    (hp : s.process = some p) (hlive : p.returncode = none) :
    (BaseMCPClient.disconnect s).fst.process = none ∧
    p.exitedAfter (BaseMCPClient.disconnect s).snd = true ∧
    ((p.stdinOpen && p.exitsOnStdinClose) = false →
      ProcAction.terminate ∈ (BaseMCPClient.disconnect s).snd ∧
      (∀ t, p.termExit = some t → t ≤ graceTimeout →
        ProcAction.waitGraceOk ∈ (BaseMCPClient.disconnect s).snd ∧
        ProcAction.kill ∉ (BaseMCPClient.disconnect s).snd) ∧
      ((p.termExit = none ∨ ∃ t, p.termExit = some t ∧ graceTimeout < t) →
        ProcAction.kill ∈ (BaseMCPClient.disconnect s).snd ∧
        ProcAction.waitUncond ∈ (BaseMCPClient.disconnect s).snd)) := by
  rw [disconnect_on_live s p hp]
  obtain ⟨rc, so, esc, te⟩ := p
  simp only [Proc.returncode] at hlive
  subst hlive
  refine ⟨rfl, ?_, ?_⟩
  · rcases te with _ | t
    · cases so <;> cases esc <;>
        simp [BaseMCPClient.disconnectActions, Proc.exitedAfter, graceTimeout]
    · by_cases h : t ≤ 3 <;> cases so <;> cases esc <;>
        simp [BaseMCPClient.disconnectActions, Proc.exitedAfter, graceTimeout, h]
  · intro hno
    rcases te with _ | t
    · cases so <;> cases esc <;>
        simp_all [BaseMCPClient.disconnectActions, graceTimeout]
    · by_cases h : t ≤ 3
      · cases so <;> cases esc <;>
          simp_all [BaseMCPClient.disconnectActions, graceTimeout]
      · cases so <;> cases esc <;>
          simp_all [BaseMCPClient.disconnectActions, graceTimeout, if_neg h]

/-- C10, evaluated at a first connection issuing one tools/list
request after the handshake: the second connection's initialize
request carries id 3. -/
theorem request_id_not_reset_by_disconnect_witness :
    (reconnectScenario promptProc stubbornProc [Op.toolsList]).snd.events =
      [ConnectEvent.spawned,
       ConnectEvent.sent (initRequest 3 "aws-docs-client" "1.0.0"),
       ConnectEvent.sent handshakeDoneNotification] :=
  (request_id_not_reset_by_disconnect promptProc stubbornProc [Op.toolsList]).2.1

/-- C2 amended, evaluated at a live process that ignores the
termination signal: disconnect kills it and the process is reaped. -/
theorem base_disconnect_two_phase_witness :
    (⟨some stubbornProc, 0⟩ : ClientState).process = some stubbornProc ∧
    ProcAction.kill ∈ (BaseMCPClient.disconnect ⟨some stubbornProc, 0⟩).snd ∧
    stubbornProc.exitedAfter (BaseMCPClient.disconnect ⟨some stubbornProc, 0⟩).snd = true :=
  ⟨rfl,
   (((base_disconnect_two_phase ⟨some stubbornProc, 0⟩ stubbornProc rfl rfl).2.2
      rfl).2.2 (Or.inl rfl)).1,
   (base_disconnect_two_phase ⟨some stubbornProc, 0⟩ stubbornProc rfl rfl).2.1⟩

/-- C4 counterexample: against the error envelope of Scenario A
(code -32601, message "unknown method"), call_tool returns the generic
failure value that names only the tool — the peer's error code and
message are not carried through. -/
theorem call_tool_error_envelope_generic :
    (BaseMCPClient.call_tool freshClient "git_status" (Json.obj [])
        (ReadEvent.jsonLine errorEnvelope)).snd.snd = callToolFailure "git_status" ∧
    callToolFailure "git_status" =
      Json.obj [("error", Json.str "Failed to call tool git_status")] :=
  ⟨rfl, rfl⟩

/-- C4 amended: call_tool always delivers an explicit value: on a
truthy response with a "result" field the result is returned verbatim;
on any other response (error envelope included) and on a timeout the
returned value is the generic `{"error": "Failed to call tool <name>"}`
marker, which does not carry the peer's error code or message. -/
theorem call_tool_explicit_outcome (s : ClientState) (toolName : String) (args : Json) :
    (∀ j v, j.truthy = true → j.getField "result" = some v →
      (BaseMCPClient.call_tool s toolName args (ReadEvent.jsonLine j)).snd.snd = v) ∧
    (∀ j, j.hasField "result" = false →
      (BaseMCPClient.call_tool s toolName args (ReadEvent.jsonLine j)).snd.snd =
        callToolFailure toolName) ∧
    (BaseMCPClient.call_tool s toolName args ReadEvent.timeout).snd.snd =
      callToolFailure toolName := by
  refine ⟨?_, ?_, rfl⟩
  · intro j v ht hv
    simp [BaseMCPClient.call_tool, BaseMCPClient.read_response, Json.hasField, ht, hv]
  · intro j hj
    cases hx : j.getField "result" with
    | none => simp [BaseMCPClient.call_tool, BaseMCPClient.read_response, Json.hasField, hx]
    | some v => simp [Json.hasField, hx] at hj

/-- C4 amended, evaluated at the Scenario A error envelope. -/
theorem call_tool_explicit_outcome_witness :
    errorEnvelope.hasField "result" = false ∧
    (BaseMCPClient.call_tool freshClient "git_log" (Json.obj [])
        (ReadEvent.jsonLine errorEnvelope)).snd.snd = callToolFailure "git_log" :=
  ⟨rfl, (call_tool_explicit_outcome freshClient "git_log" (Json.obj [])).2.1
    errorEnvelope rfl⟩

/-- C6: list_tools returns the empty sequence, without raising, on
every protocol-level failure — timeout, peer exit, malformed line,
a response without a "result" field (error envelopes included), and a
non-dict result — and on success returns the array parsed from
result.tools. -/
theorem list_tools_outcome (s : ClientState) :
    (BaseMCPClient.list_tools s ReadEvent.timeout).snd.snd = Json.arr [] ∧
    (BaseMCPClient.list_tools s ReadEvent.eof).snd.snd = Json.arr [] ∧
    (BaseMCPClient.list_tools s ReadEvent.malformedLine).snd.snd = Json.arr [] ∧
    (∀ j, j.hasField "result" = false →
      (BaseMCPClient.list_tools s (ReadEvent.jsonLine j)).snd.snd = Json.arr []) ∧
    (∀ j v, j.truthy = true → j.getField "result" = some v → v.isObj = false →
      (BaseMCPClient.list_tools s (ReadEvent.jsonLine j)).snd.snd = Json.arr []) ∧
    (∀ j rfs ts, j.truthy = true → j.getField "result" = some (Json.obj rfs) →
      (Json.obj rfs).getField "tools" = some (Json.arr ts) →
      (BaseMCPClient.list_tools s (ReadEvent.jsonLine j)).snd.snd = Json.arr ts) := by
  refine ⟨rfl, rfl, rfl, ?_, ?_, ?_⟩
  · intro j hj
    cases hx : j.getField "result" with
    | none => simp [BaseMCPClient.list_tools, BaseMCPClient.read_response, Json.hasField, hx]
    | some v => simp [Json.hasField, hx] at hj
  · intro j v ht hv hno
    cases v <;> simp_all [BaseMCPClient.list_tools, BaseMCPClient.read_response,
      Json.hasField, Json.isObj]
  · intro j rfs ts ht hv htools
    simp [BaseMCPClient.list_tools, BaseMCPClient.read_response, Json.hasField,
      ht, hv, htools]

/-- C6, evaluated: the Scenario A error envelope yields the empty tool
sequence. -/
theorem list_tools_outcome_witness :
    errorEnvelope.hasField "result" = false ∧
    (BaseMCPClient.list_tools freshClient (ReadEvent.jsonLine errorEnvelope)).snd.snd =
      Json.arr [] :=
  ⟨rfl, (list_tools_outcome freshClient).2.2.2.1 errorEnvelope rfl⟩

/-- C8: on every successful handshake the initialize request's params
hold exactly protocolVersion, capabilities {roots:{listChanged:true}}
and clientInfo {name, version}; after a response containing a "result"
field, the notifications/initialized notification — which carries no id
and no params — is sent before connect returns success. -/
theorem connect_success_handshake
    (s : ClientState) (name version : String) (p : Proc) (j : Json)
    (hgood : (j.truthy && j.hasField "result") = true) :
    (BaseMCPClient.connect s name version (SpawnOutcome.ok p)
      (HandshakeRead.read (ReadEvent.jsonLine j))).success = true ∧
    (BaseMCPClient.connect s name version (SpawnOutcome.ok p)
      (HandshakeRead.read (ReadEvent.jsonLine j))).events =
      [ConnectEvent.spawned,
       ConnectEvent.sent (initRequest (s.request_id + 1) name version),
       ConnectEvent.sent handshakeDoneNotification] ∧
    (initRequest (s.request_id + 1) name version).getField "params" =
      some (Json.obj [
        ("protocolVersion", Json.str "2024-11-05"),
        ("capabilities", Json.obj [("roots", Json.obj [("listChanged", Json.bool true)])]),
        ("clientInfo", Json.obj [("name", Json.str name), ("version", Json.str version)])]) ∧
    handshakeDoneNotification.hasField "id" = false ∧
    handshakeDoneNotification.hasField "params" = false := by
  have hc : BaseMCPClient.connect s name version (SpawnOutcome.ok p)
      (HandshakeRead.read (ReadEvent.jsonLine j)) =
      ⟨{ s with process := some p, request_id := s.request_id + 1 }, true,
       [ConnectEvent.spawned,
        ConnectEvent.sent (initRequest (s.request_id + 1) name version),
        ConnectEvent.sent handshakeDoneNotification]⟩ := by
    simp [BaseMCPClient.connect, BaseMCPClient.read_response, hgood]
  rw [hc]
  exact ⟨rfl, rfl, rfl, rfl, rfl⟩

/-- C8, evaluated at a well-formed handshake response. -/
theorem connect_success_handshake_witness :
    (goodResponse.truthy && goodResponse.hasField "result") = true ∧
    (BaseMCPClient.connect freshClient "simple-aws-docs-client" "1.0.0"
      (SpawnOutcome.ok promptProc)
      (HandshakeRead.read (ReadEvent.jsonLine goodResponse))).success = true :=
  ⟨rfl, (connect_success_handshake freshClient "simple-aws-docs-client" "1.0.0"
    promptProc goodResponse rfl).1⟩

/-- C9 (implicit): the client never checks that a response's id
matches the request it just sent: call_tool puts id request_id+1 on the
wire, yet a response carrying any other id `staleId` whose "result"
field is `v` is delivered verbatim as the answer; likewise list_tools
accepts a tools array from a response with a non-matching id. -/
theorem response_id_never_checked
    (s : ClientState) (toolName : String) (args : Json)
    (staleId : Int) (v : Json) (rest : List (String × Json)) (ts : List Json)
    (hne : staleId ≠ Int.ofNat (s.request_id + 1)) :
    (BaseMCPClient.call_tool s toolName args
        (ReadEvent.jsonLine (staleResponse staleId v rest))).snd.fst.getField "id" =
      some (Json.num (Int.ofNat (s.request_id + 1))) ∧
    (staleResponse staleId v rest).getField "id" = some (Json.num staleId) ∧
    (BaseMCPClient.call_tool s toolName args
        (ReadEvent.jsonLine (staleResponse staleId v rest))).snd.snd = v ∧
    (BaseMCPClient.list_tools s
        (ReadEvent.jsonLine (staleListResponse staleId ts))).snd.snd = Json.arr ts :=
  ⟨rfl, rfl, rfl, rfl⟩

/-- C9, evaluated: a response with id 999 answers the pending request
with id 1. -/
theorem response_id_never_checked_witness :
    ((999 : Int) ≠ Int.ofNat (freshClient.request_id + 1)) ∧
    (BaseMCPClient.call_tool freshClient "search_documentation" (Json.obj [])
        (ReadEvent.jsonLine (staleResponse 999 (Json.str "stale") []))).snd.snd =
      Json.str "stale" :=
  ⟨by decide, (response_id_never_checked freshClient "search_documentation" (Json.obj [])
    999 (Json.str "stale") [] [] (by decide)).2.2.1⟩

end MCP
